import Mathlib

/-!
Verification development for the webhook capture / mock-HTTP subsystem of the
djinn repository (src/marketplace/webhook-tester/plugin.py).

The Python plugin is shallowly embedded: pure fragments of the handler code
become Lean functions, the module-level mutable list `REQUESTS_LOG` becomes
explicit state threading, and the parts of the Python standard library the
plugin leans on (`int(...)` on strings, UTF-8 decoding, `dict(...)` of a
header mapping, the `do_<METHOD>` dispatch of `BaseHTTPRequestHandler`) are
modelled byte-for-byte where their behaviour decides a property.
-/

/-- The fragment of JSON values the plugin actually produces: every value it
serialises (`json.dump(REQUESTS_LOG, ...)`, the acknowledgement body built at
plugin.py line 66) is a string, an array, or a string-keyed object whose
field order is the Python dict insertion order. -/
inductive JValue where
  | str (s : String)
  | arr (items : List JValue)
  | obj (fields : List (String × JValue))

/-- One captured inbound HTTP exchange: the dict built at plugin.py
lines 38-44.  `headers` keeps the dict's insertion order; header names in a
real capture are distinct because the dict collapses duplicates. -/
structure RequestRecord where
  timestamp : String
  method : String
  path : String
  headers : List (String × String)
  body : String
deriving DecidableEq, Repr

/-- A raw inbound HTTP request as the handler sees it: request line data,
header lines, and the bytes available on the connection body. -/
structure Inbound where
  now : String
  method : String
  path : String
  headers : List (String × String)
  bodyBytes : List Nat
deriving DecidableEq, Repr

/-- Model of Python `str.strip()` restricted to what `int(...)` does before
parsing: surrounding whitespace is ignored. -/
def stripWs (cs : List Char) : List Char :=
  ((cs.dropWhile Char.isWhitespace).reverse.dropWhile Char.isWhitespace).reverse

/-- Digit run to a number; fails on an empty run or a non-digit. -/
def digitsToNat (ds : List Char) : Option Nat :=
  if ds = [] ∨ ¬ ds.all Char.isDigit then none
  else some (ds.foldl (fun acc c => acc * 10 + (c.toNat - 48)) 0)

/-- Model of Python `int(s)` on a string: optional surrounding whitespace,
an optional sign, then a nonempty digit run; anything else raises
`ValueError` (modelled as `none`).  Digit-group underscores, accepted by
CPython between digits, are omitted; no property below depends on them. -/
def pyInt (s : String) : Option Int :=
  match stripWs s.data with
  | [] => none
  | '+' :: ds => (digitsToNat ds).map Int.ofNat
  | '-' :: ds => (digitsToNat ds).map (fun n => -(n : Int))
  | ds => (digitsToNat ds).map Int.ofNat

/-- Character-wise `str.lower()` for header-name comparison (header names
are ASCII, where per-character lowering agrees with Python's). -/
def lowerStr (s : String) : String := ⟨s.data.map Char.toLower⟩

/-- Model of `email.message.Message.get` used by `self.headers.get(...)` at
plugin.py line 35: case-insensitive name match, first occurrence wins. -/
def headerGet (hs : List (String × String)) (name : String) : Option String :=
  (hs.find? (fun p => lowerStr p.1 == lowerStr name)).map Prod.snd

/-- One step of Python `dict(...)` built from an iterable of pairs: a later
pair with an already-present key overwrites the value in place, a fresh key
is appended. -/
def dictInsert (acc : List (String × String)) (kv : String × String) :
    List (String × String) :=
  if acc.any (fun p => p.1 == kv.1) then
    acc.map (fun p => if p.1 == kv.1 then (p.1, kv.2) else p)
  else acc ++ [kv]

/-- Model of `dict(self.headers)` at plugin.py line 42. -/
def pyDict (hs : List (String × String)) : List (String × String) :=
  hs.foldl dictInsert []

/-- Continuation byte of a UTF-8 sequence. -/
def isCont (b : Nat) : Bool := 0x80 ≤ b && b < 0xC0

/-- Strict UTF-8 decoding of a byte list to characters, as Python's
`bytes.decode('utf-8')` at plugin.py line 36: rejects stray continuation
bytes, overlong forms, surrogate code points and code points above
U+10FFFF; `none` models `UnicodeDecodeError`. -/
def utf8Chars : List Nat → Option (List Char)
  | [] => some []
  | b :: rest =>
    if b < 0x80 then
      (utf8Chars rest).map (fun cs => Char.ofNat b :: cs)
    else if b < 0xC2 then none
    else if b < 0xE0 then
      match rest with
      | b1 :: rest1 =>
        if isCont b1 then
          (utf8Chars rest1).map (fun cs =>
            Char.ofNat ((b - 0xC0) * 0x40 + (b1 - 0x80)) :: cs)
        else none
      | [] => none
    else if b < 0xF0 then
      match rest with
      | b1 :: b2 :: rest2 =>
        if isCont b1 && isCont b2 then
          let cp := (b - 0xE0) * 0x1000 + (b1 - 0x80) * 0x40 + (b2 - 0x80)
          if cp < 0x800 then none
          else if 0xD800 ≤ cp ∧ cp < 0xE000 then none
          else (utf8Chars rest2).map (fun cs => Char.ofNat cp :: cs)
        else none
      | _ => none
    else if b < 0xF5 then
      match rest with
      | b1 :: b2 :: b3 :: rest3 =>
        if isCont b1 && isCont b2 && isCont b3 then
          let cp := (b - 0xF0) * 0x40000 + (b1 - 0x80) * 0x1000 +
            (b2 - 0x80) * 0x40 + (b3 - 0x80)
          if cp < 0x10000 ∨ 0x110000 ≤ cp then none
          else (utf8Chars rest3).map (fun cs => Char.ofNat cp :: cs)
        else none
      | _ => none
    else none

/-- `bytes.decode('utf-8')` as an `Option String`. -/
def utf8Decode (bs : List Nat) : Option String :=
  (utf8Chars bs).map (fun cs => ⟨cs⟩)

/-- The exceptions that can escape `_handle_request` (plugin.py lines 35-36):
`int(...)` on an unparsable Content-Length, and `decode('utf-8')` on bytes
that are not valid UTF-8. -/
inductive HandlerErr where
  | valueError
  | unicodeDecodeError
deriving DecidableEq, Repr

/-- Plugin.py line 35: `int(self.headers.get('Content-Length', 0))`.
A missing header gives the integer default `0`; a present header is parsed
by `int`, whose failure (`none`) raises `ValueError`. -/
def parseContentLength (hs : List (String × String)) : Option Int :=
  match headerGet hs "Content-Length" with
  | none => some 0
  | some s => pyInt s

/-- Plugin.py line 36: `self.rfile.read(content_length).decode('utf-8') if
content_length > 0 else ""`. -/
def readBody (cl : Int) (bodyBytes : List Nat) : Option String :=
  if 0 < cl then utf8Decode (bodyBytes.take cl.toNat) else some ""

/-- The fixed acknowledgement body of plugin.py line 66:
`{"status": "received", "timestamp": request_data["timestamp"]}`. -/
def ackBody (ts : String) : JValue :=
  .obj [("status", .str "received"), ("timestamp", .str ts)]

/-- The response `_handle_request` writes back (plugin.py lines 62-67). -/
structure AckResponse where
  status : Int
  contentType : String
  body : JValue

/-- `send_response(200)`, `Content-type: application/json`, acknowledgement
body carrying the capture timestamp. -/
def ackResponse (ts : String) : AckResponse :=
  ⟨200, "application/json", ackBody ts⟩

/-- `WebhookHandler._handle_request` (plugin.py lines 33-67) on one inbound
request, threading the `REQUESTS_LOG` list explicitly.  On success it
returns the grown log, the appended record and the acknowledgement; an
escaping exception yields `Except.error`, in which case no record was
appended and no response was written (the exception fires before line 46
and line 62 respectively). -/
def handleRequest (log : List RequestRecord) (q : Inbound) :
    Except HandlerErr (List RequestRecord × RequestRecord × AckResponse) :=
  match parseContentLength q.headers with
  | none => .error .valueError
  | some cl =>
    match readBody cl q.bodyBytes with
    | none => .error .unicodeDecodeError
    | some body =>
      let r : RequestRecord := ⟨q.now, q.method, q.path, pyDict q.headers, body⟩
      .ok (log ++ [r], r, ackResponse q.now)

/-- The methods for which `WebhookHandler` defines a `do_<METHOD>` hook
(plugin.py lines 69-82). -/
def supportedCaptureMethods : List String :=
  ["GET", "POST", "PUT", "DELETE", "PATCH"]

/-- Result of one connection served by the capture server. -/
inductive CaptureOutcome where
  | captured (newLog : List RequestRecord) (rec : RequestRecord) (ack : AckResponse)
  | handlerError (e : HandlerErr)
  | unsupported (code : Int)

/-- Method dispatch of `http.server.BaseHTTPRequestHandler`: the handler
class has a `do_<METHOD>` attribute exactly for `supportedCaptureMethods`
(case-sensitive), and a request naming any other method is answered with
`send_error(501, "Unsupported method ...")` without running
`_handle_request`. -/
def captureDispatch (log : List RequestRecord) (q : Inbound) : CaptureOutcome :=
  if supportedCaptureMethods.contains q.method then
    match handleRequest log q with
    | .ok (l, r, a) => .captured l r a
    | .error e => .handlerError e
  else .unsupported 501

/-- JSON encoding of one record, with the dict field order of plugin.py
lines 38-44; `json.dump` preserves it. -/
def recordToJson (r : RequestRecord) : JValue :=
  .obj [("timestamp", .str r.timestamp), ("method", .str r.method),
        ("path", .str r.path),
        ("headers", .obj (r.headers.map (fun p => (p.1, JValue.str p.2)))),
        ("body", .str r.body)]

/-- `json.dump(REQUESTS_LOG, f, indent=2)` at plugin.py line 109, at the
level of the JSON value written: one array of record objects.  Textual
serialisation followed by `json.load` is the identity on such values, so
the file contents are modelled by the value itself. -/
def exportJson (log : List RequestRecord) : JValue :=
  .arr (log.map recordToJson)

/-- The save step of `start_listener` (plugin.py lines 107-110): the dump
runs only under `if save and REQUESTS_LOG:`, i.e. only when a save path was
given (a nonempty string — Python truthiness) and the log is nonempty.
`none` means no file is written at all. -/
def saveStep (save : Option String) (log : List RequestRecord) : Option JValue :=
  match save with
  | some s => if s ≠ "" ∧ log ≠ [] then some (exportJson log) else none
  | none => none

/-- Reading back the headers object of one stored record. -/
def decodeHeaders : List (String × JValue) → Option (List (String × String))
  | [] => some []
  | (k, .str v) :: rest => (decodeHeaders rest).map (fun hs => (k, v) :: hs)
  | _ => none

/-- Reading back one stored record, field for field. -/
def decodeRecord : JValue → Option RequestRecord
  | .obj [("timestamp", .str ts), ("method", .str m), ("path", .str p),
          ("headers", .obj hs), ("body", .str b)] =>
    (decodeHeaders hs).map (fun hdrs => ⟨ts, m, p, hdrs, b⟩)
  | _ => none

/-- Reading back a stored array of records in order. -/
def decodeItems : List JValue → Option (List RequestRecord)
  | [] => some []
  | j :: rest =>
    match decodeRecord j, decodeItems rest with
    | some r, some rs => some (r :: rs)
    | _, _ => none

/-- The file-reading step of `inspect_requests` (plugin.py lines 210-211):
`json.load` recovers the stored JSON value; a capture file holds an array
of record objects, read back as the ordered record sequence. -/
def loadStep : JValue → Option (List RequestRecord)
  | .arr items => decodeItems items
  | _ => none

/-- Outcome of one outbound attempt of `send_webhook`: the black-box HTTP
client either returns a status code or raises a transport exception. -/
inductive Outcome where
  | success (status : Int)
  | error
deriving DecidableEq, Repr

/-- Whether the attempt returned a response. -/
def Outcome.isSuccess : Outcome → Bool
  | .success _ => true
  | .error => false

/-- Observable events of the `send_webhook` loop, in program order. -/
inductive SendEvent where
  | attempt (idx : Nat) (out : Outcome)
  | sleep (d : ℚ)
deriving DecidableEq, Repr

/-- Whether an event is a `time.sleep` call. -/
def SendEvent.isSleep : SendEvent → Bool
  | .sleep _ => true
  | _ => false

/-- Events of iteration `i` of the loop at plugin.py lines 134-158: the
request itself, then — only when it did not raise — the guarded
`time.sleep(delay)` of lines 154-155 (`repeat > 1 and i < repeat - 1 and
delay > 0`).  When the request raises, the `except` arm skips the sleep. -/
def iterEvents (r : Nat) (d : ℚ) (t : Nat → Outcome) (i : Nat) : List SendEvent :=
  match t i with
  | .success st =>
    .attempt i (.success st) ::
      (if r > 1 ∧ i < r - 1 ∧ 0 < d then [.sleep d] else [])
  | .error => [.attempt i .error]

/-- The loop body over a list of iteration indices. -/
def sendLoop (r : Nat) (d : ℚ) (t : Nat → Outcome) : List Nat → List SendEvent
  | [] => []
  | i :: rest => iterEvents r d t i ++ sendLoop r d t rest

/-- Full event trace of `send_webhook` with repeat `r`, delay `d`, and
per-attempt transport outcome `t` (the outbound client as a black box). -/
def sendTrace (r : Nat) (d : ℚ) (t : Nat → Outcome) : List SendEvent :=
  sendLoop r d t (List.range r)

/-- The attempts of a trace, in order, with their outcomes. -/
def attemptsOf (tr : List SendEvent) : List (Nat × Outcome) :=
  tr.filterMap (fun e =>
    match e with
    | .attempt i o => some (i, o)
    | .sleep _ => none)

/-- Number of `time.sleep` calls in a trace. -/
def sleepCount (tr : List SendEvent) : Nat :=
  (tr.filter SendEvent.isSleep).length

/-- Operator configuration of `mock_server` (plugin.py lines 164-169). -/
structure MockConfig where
  status : Int
  response : String
  delay : ℚ
deriving DecidableEq, Repr

/-- Result of one connection served by the mock server. -/
inductive MockResult where
  | reply (sleptFor : ℚ) (status : Int) (contentType : String) (body : String)
  | unsupported (code : Int)
deriving DecidableEq, Repr

/-- The methods for which `MockHandler` defines a `do_<METHOD>` hook
(plugin.py lines 187-190); note the absence of PATCH. -/
def mockSupportedMethods : List String := ["GET", "POST", "PUT", "DELETE"]

/-- `MockHandler` on one request: `BaseHTTPRequestHandler` dispatch to
`_respond` (plugin.py lines 176-190), which sleeps `delay` when positive
then writes the configured status and body with `Content-type:
application/json`; a method without a `do_<METHOD>` hook is answered
`send_error(501, ...)`. -/
def mockDispatch (cfg : MockConfig) (method : String) (path : String) : MockResult :=
  if mockSupportedMethods.contains method then
    .reply (if 0 < cfg.delay then cfg.delay else 0) cfg.status
      "application/json" cfg.response
  else .unsupported 501

/-- `REQUESTS_LOG` after one connection: a captured request grows the
module-level list, every other outcome leaves it unchanged. -/
def sessionStep (glob : List RequestRecord) (q : Inbound) : List RequestRecord :=
  match captureDispatch glob q with
  | .captured l _ _ => l
  | _ => glob

/-- One listener run (`start_listener`) serving `reqs` in order, threading
the module-level `REQUESTS_LOG` (plugin.py line 24).  Starting a new
`TCPServer` does not reset the list: a second run in the same process
starts from the first run's final state. -/
def runSession (glob : List RequestRecord) (reqs : List Inbound) :
    List RequestRecord :=
  reqs.foldl sessionStep glob

/-- The `socketserver` server classes a Python server can be built on. -/
inductive ServerClass where
  | plainTCPServer
  | threadingTCPServer
  | forkingTCPServer
deriving DecidableEq, Repr

/-- `start_listener` (plugin.py line 102) constructs
`socketserver.TCPServer`. -/
def captureServerClass : ServerClass := .plainTCPServer

/-- `mock_server` (plugin.py line 199) constructs
`socketserver.TCPServer`. -/
def mockServerClass : ServerClass := .plainTCPServer

/-- Whether the class hands each accepted connection to its own unit of
concurrent execution: `ThreadingTCPServer` spawns a thread per connection
and `ForkingTCPServer` a process, while plain `TCPServer.serve_forever`
processes one request to completion at a time in the accept loop's own
thread. -/
def perConnectionConcurrency : ServerClass → Bool
  | .plainTCPServer => false
  | .threadingTCPServer => true
  | .forkingTCPServer => true

theorem attemptsOf_append (a b : List SendEvent) :
    attemptsOf (a ++ b) = attemptsOf a ++ attemptsOf b := by
  simp [attemptsOf, List.filterMap_append]

theorem attemptsOf_iterEvents (r : Nat) (d : ℚ) (t : Nat → Outcome) (i : Nat) :
    attemptsOf (iterEvents r d t i) = [(i, t i)] := by
  unfold iterEvents
  cases h : t i with
  | success st =>
    simp only [attemptsOf, List.filterMap_cons]
    split <;> simp [attemptsOf]
  | error => simp [attemptsOf]

theorem attemptsOf_sendLoop (r : Nat) (d : ℚ) (t : Nat → Outcome)
    (l : List Nat) :
    attemptsOf (sendLoop r d t l) = l.map (fun i => (i, t i)) := by
  induction l with
  | nil => rfl
  | cons i rest ih =>
    simp [sendLoop, attemptsOf_append, attemptsOf_iterEvents, ih]

theorem sleepCount_append (a b : List SendEvent) :
    sleepCount (a ++ b) = sleepCount a + sleepCount b := by
  simp [sleepCount, List.filter_append]

theorem sleepCount_iterEvents (r : Nat) (d : ℚ) (t : Nat → Outcome) (i : Nat) :
    sleepCount (iterEvents r d t i) =
      if (t i).isSuccess = true ∧ r > 1 ∧ i < r - 1 ∧ 0 < d then 1 else 0 := by
  unfold iterEvents
  cases h : t i with
  | success st =>
    simp only [Outcome.isSuccess, true_and]
    split <;> simp [sleepCount, SendEvent.isSleep]
  | error => simp [Outcome.isSuccess, sleepCount, SendEvent.isSleep]

theorem sleepCount_sendLoop (r : Nat) (d : ℚ) (t : Nat → Outcome)
    (l : List Nat) :
    sleepCount (sendLoop r d t l) =
      (l.filter (fun i =>
        (t i).isSuccess && (decide (r > 1) && (decide (i < r - 1) && decide (0 < d))))).length := by
  induction l with
  | nil => rfl
  | cons i rest ih =>
    rw [sendLoop, sleepCount_append, sleepCount_iterEvents, ih, List.filter_cons]
    by_cases hc : (t i).isSuccess = true ∧ r > 1 ∧ i < r - 1 ∧ 0 < d
    · rw [if_pos hc]
      obtain ⟨h1, h2, h3, h4⟩ := hc
      simp [h1, h2, h3, h4]
      omega
    · rw [if_neg hc]
      have hb : ((t i).isSuccess &&
          (decide (r > 1) && (decide (i < r - 1) && decide (0 < d)))) = false := by
        by_contra hfb
        apply hc
        simp only [Bool.not_eq_false, Bool.and_eq_true, decide_eq_true_eq] at hfb
        exact ⟨hfb.1, hfb.2.1, hfb.2.2.1, hfb.2.2.2⟩
      simp [hb]

theorem sendLoop_append (r : Nat) (d : ℚ) (t : Nat → Outcome)
    (l₁ l₂ : List Nat) :
    sendLoop r d t (l₁ ++ l₂) = sendLoop r d t l₁ ++ sendLoop r d t l₂ := by
  induction l₁ with
  | nil => rfl
  | cons i rest ih => simp [sendLoop, ih]

theorem head?_iterEvents_append (r : Nat) (d : ℚ) (t : Nat → Outcome)
    (i : Nat) (rest : List SendEvent) :
    ((iterEvents r d t i) ++ rest).head? = some (.attempt i (t i)) := by
  unfold iterEvents
  cases h : t i <;> simp

theorem iterEvents_last (d : ℚ) (t : Nat → Outcome) (n : Nat) :
    iterEvents (n + 1) d t n = [.attempt n (t n)] := by
  unfold iterEvents
  cases h : t n with
  | success st => simp
  | error => rfl

theorem filter_range_shrink (n : Nat) (s : Nat → Bool) (d0 : Bool) :
    ((List.range (n + 1)).filter
      (fun i => s i && (decide (n + 1 > 1) && (decide (i < n) && d0)))) =
    ((List.range n).filter (fun i => s i && d0)) := by
  cases n with
  | zero => simp
  | succ m =>
    rw [show m + 1 + 1 = (m + 1) + 1 from rfl, List.range_succ, List.filter_append]
    have hlast : (List.filter
        (fun i => s i && (decide (m + 1 + 1 > 1) && (decide (i < m + 1) && d0)))
        [m + 1]) = [] := by
      simp
    rw [hlast, List.append_nil]
    apply List.filter_congr
    intro i hi
    have : i < m + 1 := List.mem_range.mp hi
    simp [this]

/-- C5 (counterexample): with repeat 2, delay 1 and a transport that raises
on every attempt, the `send_webhook` loop performs both attempts but never
calls `time.sleep` — the claimed delay between the two consecutive attempts
is skipped because the first attempt's exception jumps over the guarded
sleep at plugin.py lines 154-155.  The claim, which demands the delay
between every adjacent pair of attempts regardless of outcome, is false
here. -/
theorem c5_counterexample :
    sendTrace 2 1 (fun _ => Outcome.error) =
      [.attempt 0 .error, .attempt 1 .error] ∧
    sleepCount (sendTrace 2 1 (fun _ => Outcome.error)) = 0 := by
  constructor <;> rfl

/-- C5 (amended): for repeat `r ≥ 1` and delay `d`, `send_webhook` performs
exactly `r` attempts in order with their own outcomes, never sleeps before
the first attempt or after the last, and calls `time.sleep(d)` exactly once
for each non-final attempt that succeeded (when `d > 0`); the delay after a
failed attempt is skipped, because the sleep sits inside the `try` block
after the request. -/
theorem c5_send_delay_amended (r : Nat) (d : ℚ) (t : Nat → Outcome)
    (hr : 1 ≤ r) :
    attemptsOf (sendTrace r d t) = (List.range r).map (fun i => (i, t i)) ∧
    (sendTrace r d t).head? = some (.attempt 0 (t 0)) ∧
    (sendTrace r d t).getLast? = some (.attempt (r - 1) (t (r - 1))) ∧
    sleepCount (sendTrace r d t) =
      ((List.range (r - 1)).filter
        (fun i => (t i).isSuccess && decide (0 < d))).length := by
  obtain ⟨n, rfl⟩ : ∃ n, r = n + 1 := ⟨r - 1, by omega⟩
  refine ⟨attemptsOf_sendLoop _ _ _ _, ?_, ?_, ?_⟩
  · rw [sendTrace, List.range_succ_eq_map, sendLoop]
    exact head?_iterEvents_append _ _ _ _ _
  · rw [sendTrace, List.range_succ, sendLoop_append, sendLoop, sendLoop,
      List.append_nil, iterEvents_last]
    simp
  · rw [sendTrace, sleepCount_sendLoop, Nat.add_sub_cancel,
      filter_range_shrink n (fun i => (t i).isSuccess) (decide (0 < d))]

/-- C5 (witness): the amended statement evaluated at repeat 3, delay 1 and
a transport that fails only on the middle attempt. -/
theorem c5_witness :
    attemptsOf (sendTrace 3 1 (fun i => if i = 1 then .error else .success 200)) =
      (List.range 3).map
        (fun i => (i, if i = 1 then Outcome.error else .success 200)) ∧
    (sendTrace 3 1 (fun i => if i = 1 then .error else .success 200)).head? =
      some (.attempt 0 (if 0 = 1 then .error else .success 200)) ∧
    (sendTrace 3 1 (fun i => if i = 1 then .error else .success 200)).getLast? =
      some (.attempt (3 - 1) (if 3 - 1 = 1 then .error else .success 200)) ∧
    sleepCount (sendTrace 3 1 (fun i => if i = 1 then .error else .success 200)) =
      ((List.range (3 - 1)).filter
        (fun i => (if i = 1 then Outcome.error else .success 200).isSuccess &&
          decide ((0 : ℚ) < 1))).length :=
  c5_send_delay_amended 3 1 (fun i => if i = 1 then .error else .success 200)
    (by decide)

/-- C6: a transport-level failure on an attempt is recorded as that
attempt's error outcome and does not abort the remaining attempts — with a
transport that fails on every attempt (an unreachable host), the loop at
plugin.py lines 134-158 still performs exactly `r` attempts, in order, all
errors, because the `except` arm only prints and the loop continues. -/
theorem c6_sender_resilience (r : Nat) (d : ℚ) (t : Nat → Outcome)
    (h : ∀ i, t i = .error) :
    attemptsOf (sendTrace r d t) =
      (List.range r).map (fun i => (i, Outcome.error)) ∧
    (attemptsOf (sendTrace r d t)).length = r := by
  rw [sendTrace, attemptsOf_sendLoop]
  refine ⟨List.map_congr_left (fun i _ => by rw [h i]), by simp⟩

/-- C6 (witness): repeat 5 against an always-failing transport yields
exactly 5 attempts, all errors. -/
theorem c6_witness :
    attemptsOf (sendTrace 5 2 (fun _ => Outcome.error)) =
      (List.range 5).map (fun i => (i, Outcome.error)) ∧
    (attemptsOf (sendTrace 5 2 (fun _ => Outcome.error))).length = 5 :=
  c6_sender_resilience 5 2 (fun _ => Outcome.error) (fun _ => rfl)

theorem handleRequest_ok (log : List RequestRecord) (q : Inbound)
    (l : List RequestRecord) (r : RequestRecord) (a : AckResponse)
    (h : handleRequest log q = .ok (l, r, a)) :
    l = log ++ [r] ∧ a = ackResponse q.now ∧ r.timestamp = q.now ∧
    r.method = q.method ∧ r.path = q.path ∧ r.headers = pyDict q.headers := by
  unfold handleRequest at h
  split at h
  · exact Except.noConfusion h
  · split at h
    · exact Except.noConfusion h
    · simp only [Except.ok.injEq, Prod.mk.injEq] at h
      obtain ⟨h1, h2, h3⟩ := h
      subst h2
      exact ⟨h1.symm, h3.symm, rfl, rfl, rfl, rfl⟩

theorem captureDispatch_captured (log : List RequestRecord) (q : Inbound)
    (l : List RequestRecord) (r : RequestRecord) (a : AckResponse)
    (h : captureDispatch log q = .captured l r a) :
    handleRequest log q = .ok (l, r, a) := by
  unfold captureDispatch at h
  split at h
  · split at h
    next l' r' a' heq =>
      injection h with e1 e2 e3
      subst e1; subst e2; subst e3
      exact heq
    next e heq => exact CaptureOutcome.noConfusion h
  · exact CaptureOutcome.noConfusion h

/-- C7: every request the capture server captures is acknowledged with the
fixed response of plugin.py lines 62-67 — status 200, `Content-type:
application/json`, body `{"status": "received", "timestamp": t}` where `t`
is exactly the timestamp of the record appended for that request; nothing
in the listener lets an operator change it. -/
theorem c7_fixed_ack (log : List RequestRecord) (q : Inbound)
    (l : List RequestRecord) (r : RequestRecord) (a : AckResponse)
    (h : captureDispatch log q = .captured l r a) :
    a.status = 200 ∧ a.contentType = "application/json" ∧
    a.body = JValue.obj [("status", .str "received"),
                         ("timestamp", .str r.timestamp)] ∧
    l = log ++ [r] := by
  obtain ⟨h1, h2, h3, -⟩ := handleRequest_ok log q l r a
    (captureDispatch_captured log q l r a h)
  subst h2
  exact ⟨rfl, rfl, by rw [h3]; rfl, h1⟩

/-- C7 (witness): the fixed acknowledgement evaluated on a concrete GET
capture. -/
theorem c7_witness :
    (ackResponse "2025-03-01T08:00:00").status = 200 ∧
    (ackResponse "2025-03-01T08:00:00").contentType = "application/json" ∧
    (ackResponse "2025-03-01T08:00:00").body =
      JValue.obj [("status", .str "received"),
                  ("timestamp", .str "2025-03-01T08:00:00")] ∧
    [(⟨"2025-03-01T08:00:00", "GET", "/hooks/a", [], ""⟩ : RequestRecord)] =
      [] ++ [⟨"2025-03-01T08:00:00", "GET", "/hooks/a", [], ""⟩] :=
  c7_fixed_ack [] ⟨"2025-03-01T08:00:00", "GET", "/hooks/a", [], []⟩ _ _ _ rfl

/-- C2 (counterexample): a request whose method is OPTIONS — outside the
five `do_<METHOD>` hooks of `WebhookHandler` — is rejected by the
`BaseHTTPRequestHandler` dispatch with `send_error(501, "Unsupported
method ...")`; it is neither captured nor acknowledged, refuting the claim
that the server never rejects a request because of its method. -/
theorem c2_counterexample :
    captureDispatch [] ⟨"2025-01-01T00:00:00", "OPTIONS", "/hooks", [], []⟩ =
      .unsupported 501 := by
  rfl

/-- C2 (amended): only GET, POST, PUT, DELETE and PATCH requests are
captured — with the method stored exactly as received and the fixed
acknowledgement — while a request of any other method is answered 501
Unsupported method and never reaches `_handle_request`. -/
theorem c2_method_dispatch_amended (log : List RequestRecord) (q : Inbound)
    (l : List RequestRecord) (r : RequestRecord) (a : AckResponse) :
    (supportedCaptureMethods.contains q.method = true →
      handleRequest log q = .ok (l, r, a) →
      captureDispatch log q = .captured l r a ∧ r.method = q.method ∧
        a = ackResponse q.now) ∧
    (supportedCaptureMethods.contains q.method = false →
      captureDispatch log q = .unsupported 501) := by
  constructor
  · intro hm hh
    obtain ⟨-, h2, -, h4, -, -⟩ := handleRequest_ok log q l r a hh
    refine ⟨?_, h4, h2⟩
    unfold captureDispatch
    rw [if_pos hm, hh]
  · intro hm
    unfold captureDispatch
    rw [if_neg (fun hc => by rw [hm] at hc; exact Bool.noConfusion hc)]

/-- C2 (witness): the amended statement evaluated on a concrete GET request
(captured, method stored as received, fixed acknowledgement) and a concrete
OPTIONS request (501, not captured). -/
theorem c2_witness :
    (captureDispatch []
        ⟨"2025-02-02T09:30:00", "GET", "/cb", [("X-Token", "abc")], []⟩ =
      .captured
        [⟨"2025-02-02T09:30:00", "GET", "/cb", [("X-Token", "abc")], ""⟩]
        ⟨"2025-02-02T09:30:00", "GET", "/cb", [("X-Token", "abc")], ""⟩
        (ackResponse "2025-02-02T09:30:00") ∧
      (⟨"2025-02-02T09:30:00", "GET", "/cb", [("X-Token", "abc")], ""⟩ :
        RequestRecord).method = "GET" ∧
      ackResponse "2025-02-02T09:30:00" = ackResponse "2025-02-02T09:30:00") ∧
    captureDispatch [] ⟨"2025-02-02T09:31:00", "HEAD", "/cb", [], []⟩ =
      .unsupported 501 :=
  ⟨(c2_method_dispatch_amended []
      ⟨"2025-02-02T09:30:00", "GET", "/cb", [("X-Token", "abc")], []⟩
      _ _ _).1 rfl rfl,
   (c2_method_dispatch_amended [] ⟨"2025-02-02T09:31:00", "HEAD", "/cb", [], []⟩
      [] ⟨"", "", "", [], ""⟩ (ackResponse "")).2 rfl⟩

/-- C3 (counterexample): `MockHandler` defines `do_GET`, `do_POST`,
`do_PUT` and `do_DELETE` but no `do_PATCH`, so a PATCH request to a mock
server configured with status 418 and body `{"teapot":true}` receives a
501 Unsupported method error instead of the configured response, refuting
the claim for requests of any method. -/
theorem c3_counterexample :
    mockDispatch ⟨418, "\x7b\"teapot\":true\x7d", 0⟩ "PATCH" "/any" =
      .unsupported 501 := by
  rfl

/-- C3 (amended): for the methods `MockHandler` actually hooks — GET, POST,
PUT, DELETE — every request on any path receives exactly the configured
status and configured body after the configured delay (when nonzero), and
the response is identical across repeated requests whatever the supported
method or path; any other method receives 501. -/
theorem c3_mock_determinism_amended (cfg : MockConfig) (m p m' p' : String)
    (hm : mockSupportedMethods.contains m = true)
    (hm' : mockSupportedMethods.contains m' = true) :
    mockDispatch cfg m p =
      .reply (if 0 < cfg.delay then cfg.delay else 0) cfg.status
        "application/json" cfg.response ∧
    mockDispatch cfg m p = mockDispatch cfg m' p' := by
  unfold mockDispatch
  rw [hm, hm']
  exact ⟨rfl, rfl⟩

/-- C3 (witness): the amended statement evaluated at the spec's
teapot configuration, a GET and a POST on different paths. -/
theorem c3_witness :
    mockDispatch ⟨418, "\x7b\"teapot\":true\x7d", 0⟩ "GET" "/x" =
      .reply (if 0 < (⟨418, "\x7b\"teapot\":true\x7d", 0⟩ : MockConfig).delay
          then (⟨418, "\x7b\"teapot\":true\x7d", 0⟩ : MockConfig).delay else 0)
        418 "application/json" "\x7b\"teapot\":true\x7d" ∧
    mockDispatch ⟨418, "\x7b\"teapot\":true\x7d", 0⟩ "GET" "/x" =
      mockDispatch ⟨418, "\x7b\"teapot\":true\x7d", 0⟩ "POST" "/y" :=
  c3_mock_determinism_amended ⟨418, "\x7b\"teapot\":true\x7d", 0⟩
    "GET" "/x" "POST" "/y" rfl rfl

/-- C4 (counterexample): a POST whose Content-Length header is the
unparsable string "abc" is not processed with a zero-length body — the
`int(...)` call at plugin.py line 35 raises `ValueError`, so the handler
dies with no record appended and no acknowledgement sent, refuting the
claim that a malformed Content-Length is treated as zero. -/
theorem c4_counterexample :
    captureDispatch []
        ⟨"2025-01-05T12:00:00", "POST", "/wh", [("Content-Length", "abc")], []⟩ =
      .handlerError .valueError := by
  rfl

/-- C4 (amended): a missing Content-Length header is treated as a
zero-length body — a record with empty body is appended and the request
acknowledged — but a present, unparsable value makes `int(...)` raise
`ValueError`, ending that handler with no record and no response (the
`socketserver` machinery confines the exception to that connection, so the
accept loop survives). -/
theorem c4_content_length_amended (log : List RequestRecord) (q : Inbound)
    (hm : supportedCaptureMethods.contains q.method = true) :
    (headerGet q.headers "Content-Length" = none →
      captureDispatch log q =
        .captured (log ++ [⟨q.now, q.method, q.path, pyDict q.headers, ""⟩])
          ⟨q.now, q.method, q.path, pyDict q.headers, ""⟩
          (ackResponse q.now)) ∧
    (∀ s, headerGet q.headers "Content-Length" = some s → pyInt s = none →
      captureDispatch log q = .handlerError .valueError) := by
  constructor
  · intro hcl
    have hp : parseContentLength q.headers = some 0 := by
      unfold parseContentLength
      rw [hcl]
    have hb : readBody 0 q.bodyBytes = some "" := by
      unfold readBody
      rw [if_neg (lt_irrefl 0)]
    simp only [captureDispatch, handleRequest, if_pos hm, hp, hb]
  · intro s hcl hps
    have hp : parseContentLength q.headers = none := by
      unfold parseContentLength
      rw [hcl]
      exact hps
    simp only [captureDispatch, handleRequest, if_pos hm, hp]

/-- C4 (witness): the amended statement evaluated on a request with no
Content-Length header and on one whose Content-Length is "12x". -/
theorem c4_witness :
    captureDispatch [] ⟨"2025-01-06T08:00:00", "POST", "/a", [("X-K", "v")], []⟩ =
      .captured
        [⟨"2025-01-06T08:00:00", "POST", "/a", [("X-K", "v")], ""⟩]
        ⟨"2025-01-06T08:00:00", "POST", "/a", [("X-K", "v")], ""⟩
        (ackResponse "2025-01-06T08:00:00") ∧
    captureDispatch []
        ⟨"2025-01-06T08:01:00", "POST", "/b", [("Content-Length", "12x")], []⟩ =
      .handlerError .valueError :=
  ⟨(c4_content_length_amended []
      ⟨"2025-01-06T08:00:00", "POST", "/a", [("X-K", "v")], []⟩ rfl).1 rfl,
   (c4_content_length_amended []
      ⟨"2025-01-06T08:01:00", "POST", "/b", [("Content-Length", "12x")], []⟩
      rfl).2 "12x" rfl rfl⟩

/-- C10 (counterexample): a request whose Content-Length is the unparsable
string "two" is not captured even though its body bytes (ASCII "hi") are
valid UTF-8 — `int(...)` raises before the body is ever read — refuting the
claimed equivalence "captured if and only if the body decodes as UTF-8". -/
theorem c10_counterexample :
    (utf8Decode [104, 105]).isSome = true ∧
    handleRequest []
        ⟨"2025-04-01T00:00:00", "POST", "/u", [("Content-Length", "two")],
          [104, 105]⟩ =
      .error .valueError := by
  constructor <;> rfl

/-- C10 (amended): restricted to requests whose Content-Length parses (or
is absent): with a positive parsed length, body bytes that are not valid
UTF-8 make `decode('utf-8')` raise, so no record is appended and no
acknowledgement is sent; and such a request is handled successfully exactly
when the body read of plugin.py line 36 succeeds (a nonpositive length reads
the empty body, which always decodes).  Requests with an unparsable
Content-Length die earlier, in `int(...)`, whatever their body. -/
theorem c10_utf8_amended (log : List RequestRecord) (q : Inbound) (cl : Int)
    (hp : parseContentLength q.headers = some cl) :
    (0 < cl → utf8Decode (q.bodyBytes.take cl.toNat) = none →
      handleRequest log q = .error .unicodeDecodeError) ∧
    ((∃ out, handleRequest log q = .ok out) ↔
      (readBody cl q.bodyBytes).isSome = true) := by
  constructor
  · intro hcl hdec
    have hb : readBody cl q.bodyBytes = none := by
      unfold readBody
      rw [if_pos hcl, hdec]
    simp only [handleRequest, hp, hb]
  · cases hb : readBody cl q.bodyBytes with
    | none => simp [handleRequest, hp, hb]
    | some body => simp [handleRequest, hp, hb]

/-- C10 (witness): a PUT with Content-Length 1 and the single byte 0xFF —
not valid UTF-8 — raises `UnicodeDecodeError`: no record, no response. -/
theorem c10_witness :
    handleRequest []
        ⟨"2025-04-02T00:00:00", "PUT", "/bin", [("Content-Length", "1")], [255]⟩ =
      .error .unicodeDecodeError ∧
    ¬ (∃ out, handleRequest []
        ⟨"2025-04-02T00:00:00", "PUT", "/bin", [("Content-Length", "1")], [255]⟩ =
      .ok out) := by
  have h := c10_utf8_amended []
    ⟨"2025-04-02T00:00:00", "PUT", "/bin", [("Content-Length", "1")], [255]⟩
    1 rfl
  refine ⟨h.1 (by decide) rfl, fun hex => ?_⟩
  have hiso := h.2.mp hex
  rw [show readBody 1 [255] = none from rfl] at hiso
  exact Bool.noConfusion hiso

theorem decodeHeaders_map (hs : List (String × String)) :
    decodeHeaders (hs.map (fun p => (p.1, JValue.str p.2))) = some hs := by
  induction hs with
  | nil => rfl
  | cons p rest ih =>
    obtain ⟨k, v⟩ := p
    simp [decodeHeaders, ih]

theorem decodeRecord_toJson (r : RequestRecord) :
    decodeRecord (recordToJson r) = some r := by
  obtain ⟨ts, m, p, hs, b⟩ := r
  simp [recordToJson, decodeRecord, decodeHeaders_map]

theorem decodeItems_map (log : List RequestRecord) :
    decodeItems (log.map recordToJson) = some log := by
  induction log with
  | nil => rfl
  | cons r rest ih => simp [decodeItems, decodeRecord_toJson, ih]

/-- C1 (counterexample): for the empty CaptureLog, the save step of
`start_listener` writes no file at all — the dump at plugin.py lines
108-109 is guarded by `if save and REQUESTS_LOG:`, and an empty list is
falsy — so there is no file whose load could yield the empty sequence,
refuting the round-trip claim at size 0. -/
theorem c1_counterexample : saveStep (some "capture.json") [] = none := by
  rfl

/-- C1 (amended): for a truthy save path and a nonempty CaptureLog, the
save step writes the full JSON array of records, and the file-reading step
of `inspect_requests` recovers exactly the original ordered sequence,
field for field; only the empty log is excluded, as its file is never
written. -/
theorem c1_roundtrip_amended (s : String) (log : List RequestRecord)
    (hs : s ≠ "") (hlog : log ≠ []) :
    saveStep (some s) log = some (exportJson log) ∧
    loadStep (exportJson log) = some log := by
  refine ⟨?_, ?_⟩
  · simp only [saveStep]
    rw [if_pos ⟨hs, hlog⟩]
  · unfold loadStep exportJson
    exact decodeItems_map log

/-- C1 (witness): the amended round trip evaluated on a log of 101 copies
of a concrete record (covering the size > 100 case). -/
theorem c1_witness :
    saveStep (some "capture.json")
        (List.replicate 101
          ⟨"2025-05-01T00:00:00", "POST", "/hooks/test",
            [("Content-Length", "5")], "hello"⟩) =
      some (exportJson (List.replicate 101
        ⟨"2025-05-01T00:00:00", "POST", "/hooks/test",
          [("Content-Length", "5")], "hello"⟩)) ∧
    loadStep (exportJson (List.replicate 101
        ⟨"2025-05-01T00:00:00", "POST", "/hooks/test",
          [("Content-Length", "5")], "hello"⟩)) =
      some (List.replicate 101
        ⟨"2025-05-01T00:00:00", "POST", "/hooks/test",
          [("Content-Length", "5")], "hello"⟩) :=
  c1_roundtrip_amended "capture.json" _ (by decide) (by simp)

/-- Session-1 request of the C8 counterexample. -/
def reqRunOne : Inbound := ⟨"2025-06-01T10:00:00", "POST", "/first-run", [], []⟩

/-- Session-2 request of the C8 counterexample. -/
def reqRunTwo : Inbound := ⟨"2025-06-01T11:00:00", "POST", "/second-run", [], []⟩

/-- The record session 1 appends. -/
def recRunOne : RequestRecord :=
  ⟨"2025-06-01T10:00:00", "POST", "/first-run", [], ""⟩

/-- The record session 2 appends. -/
def recRunTwo : RequestRecord :=
  ⟨"2025-06-01T11:00:00", "POST", "/second-run", [], ""⟩

/-- C8 (counterexample): `REQUESTS_LOG` is a module-level global
(plugin.py line 24) that no server run resets: after a first listener run
captures one request, a second run in the same process starts from — and
keeps — the first run's record, so the log seen (and saved) by the second
server instance is `[recRunOne, recRunTwo]`, not `[recRunTwo]`; the record
appended during run 1 is visible to run 2, refuting the claimed per-instance
ownership. -/
theorem c8_counterexample :
    runSession (runSession [] [reqRunOne]) [reqRunTwo] = [recRunOne, recRunTwo] ∧
    recRunOne ∈ runSession (runSession [] [reqRunOne]) [reqRunTwo] := by
  have h : runSession (runSession [] [reqRunOne]) [reqRunTwo] =
      [recRunOne, recRunTwo] := rfl
  exact ⟨h, by rw [h]; exact List.mem_cons_self _ _⟩

/-- C8 (amended): the capture history is a single process-wide list shared
by every `WebhookHandler` — any listener run only ever appends to the
global it was handed, so whatever `REQUESTS_LOG` held when a run started
(including all records of earlier runs in the same process) is still a
prefix of the log when that run ends. -/
theorem c8_global_log_amended (glob : List RequestRecord) (reqs : List Inbound) :
    ∃ tail, runSession glob reqs = glob ++ tail := by
  induction reqs generalizing glob with
  | nil => exact ⟨[], by simp [runSession]⟩
  | cons q rest ih =>
    have hstep : ∃ t0, sessionStep glob q = glob ++ t0 := by
      unfold sessionStep
      cases hc : captureDispatch glob q with
      | captured l r a =>
        obtain ⟨h1, -⟩ := handleRequest_ok glob q l r a
          (captureDispatch_captured glob q l r a hc)
        exact ⟨[r], h1⟩
      | handlerError e => exact ⟨[], by simp⟩
      | unsupported c => exact ⟨[], by simp⟩
    obtain ⟨t0, h0⟩ := hstep
    obtain ⟨t1, h1⟩ := ih (sessionStep glob q)
    refine ⟨t0 ++ t1, ?_⟩
    have : runSession glob (q :: rest) = runSession (sessionStep glob q) rest := rfl
    rw [this, h1, h0, List.append_assoc]

/-- C9 (counterexample): both `start_listener` and `mock_server` build
their server on plain `socketserver.TCPServer` (plugin.py lines 102 and
199), whose `serve_forever` processes one connection to completion at a
time in the accept loop's own thread — neither server hands connections to
their own concurrent unit, refuting the claim. -/
theorem c9_counterexample :
    ¬ (perConnectionConcurrency captureServerClass = true ∧
       perConnectionConcurrency mockServerClass = true) := by
  decide

/-- C9 (amended): both servers are built on plain `socketserver.TCPServer`,
a strictly single-connection-at-a-time synchronous design: one slow or
large-bodied client blocks every other connection until its request
completes. -/
theorem c9_sequential_serving_amended :
    captureServerClass = ServerClass.plainTCPServer ∧
    mockServerClass = ServerClass.plainTCPServer ∧
    perConnectionConcurrency ServerClass.plainTCPServer = false := by
  decide
